import Mathlib

/-!
Shallow embedding of the HID service layer in
`src/core/hle/service/hid/hid_server.cpp` (yuzu extract), covering:

* the `IActiveVibrationDeviceList` activation registry
  (`ActivateVibrationDeviceImpl`, lines 67-91);
* the managed-mode device-activation handlers
  (`ActivateDebugPad` / `ActivateTouchScreen` / `ActivateMouse` /
  `ActivateKeyboard`, lines 266-348, and `ActivateSevenSixAxisSensor`,
  lines 1909-1928);
* the hardcoded `GetXpadIds` handler (lines 405-415);
* the stubbed handlers `ActivateXpad`, `SendKeyboardLockKeyEvent`,
  `DeactivateNpad`, `SetNpadCommunicationMode`;
* the `SendVibrationValues` handler (lines 1638-1669).

External collaborators (`IsVibrationHandleValid`, the `ResourceManager`
delegates, `HidFirmwareSettings::IsDeviceManaged`) live outside this
extract; they are passed in as parameters, exactly as the handlers consume
them.  Delegate invocations are recorded in explicit call lists so that
"no delegate call is made" is a provable statement.
-/

set_option autoImplicit false
set_option linter.unusedVariables false
set_option maxRecDepth 8192

namespace Hid

/-- The service result code.  In the source a `Result` wraps a 32-bit raw
value; `IsSuccess()` holds exactly when the raw value is zero. -/
structure Result where
  raw : Nat
deriving DecidableEq

/-- `Result::IsSuccess()`: the raw value is zero. -/
def Result.IsSuccess (r : Result) : Bool := r.raw == 0

/-- `Result::IsError()`: the raw value is nonzero. -/
def Result.IsError (r : Result) : Bool := !(r.raw == 0)

/-- `ResultSuccess`: raw value zero. -/
def ResultSuccess : Result := ⟨0⟩

/-- `ResultVibrationDeviceIndexOutOfRange` from `hid_result.h` (outside the
extract): error module HID (202), description 124; raw value
`202 + 124 * 512`. -/
def ResultVibrationDeviceIndexOutOfRange : Result := ⟨202 + 124 * 512⟩

/-- `ResultVibrationArraySizeMismatch` from `hid_result.h` (outside the
extract): error module HID (202), description 131; raw value
`202 + 131 * 512`. -/
def ResultVibrationArraySizeMismatch : Result := ⟨202 + 131 * 512⟩

/-- `Core::HID::VibrationDeviceHandle` (declared in `hid_types.h`, outside
the extract): device kind (`npad_type`), logical id (`npad_id`) and motor
sub-index (`device_index`), plus one trailing padding byte that carries no
identity. -/
structure VibrationDeviceHandle where
  npad_type : Nat
  npad_id : Nat
  device_index : Nat
  pad : Nat
deriving DecidableEq

/-- The composite-equality test used by the registry's duplicate scan,
lines 76-78: the three fields `device_index`, `npad_id`, `npad_type` are
compared; the padding byte is not. -/
def vibrationHandlesMatch (handle d : VibrationDeviceHandle) : Bool :=
  handle.device_index == d.device_index && handle.npad_id == d.npad_id &&
    handle.npad_type == d.npad_type

/-- Capacity of `vibration_device_list`: `std::array<..., 0x100>`, line 95. -/
def vibrationDeviceListCapacity : Nat := 0x100

/-- The mutable state of `IActiveVibrationDeviceList`: the first
`list_size` slots of `vibration_device_list` in insertion order
(lines 94-95). -/
structure DeviceListState where
  vibration_device_list : List VibrationDeviceHandle
deriving DecidableEq

/-- One call of `ActivateVibrationDeviceImpl`: the returned `Result`, the
registry state after the call, and the handles passed to the resource
manager delegate `GetVibrationDevice(handle)->Activate()` during the call. -/
structure ActivateOutcome where
  result : Result
  state : DeviceListState
  delegate_calls : List VibrationDeviceHandle
deriving DecidableEq

/-- `IActiveVibrationDeviceList::ActivateVibrationDeviceImpl`, lines 67-91.
`isVibrationHandleValid` stands for the external `IsVibrationHandleValid`
validator and `delegateActivate` for
`resource_manager->GetVibrationDevice(handle)->Activate()`. -/
def ActivateVibrationDeviceImpl (isVibrationHandleValid : VibrationDeviceHandle → Result)
    (delegateActivate : VibrationDeviceHandle → Result)
    (s : DeviceListState) (handle : VibrationDeviceHandle) : ActivateOutcome :=
  let is_valid := isVibrationHandleValid handle
  if is_valid.IsError then ⟨is_valid, s, []⟩
  else if s.vibration_device_list.any (fun d => vibrationHandlesMatch handle d) then
    ⟨ResultSuccess, s, []⟩
  else if s.vibration_device_list.length == vibrationDeviceListCapacity then
    ⟨ResultVibrationDeviceIndexOutOfRange, s, []⟩
  else
    let result := delegateActivate handle
    if result.IsError then ⟨result, s, [handle]⟩
    else ⟨ResultSuccess, ⟨s.vibration_device_list ++ [handle]⟩, [handle]⟩

/-- Repeated activation: fold `ActivateVibrationDeviceImpl` over a list of
handles, collecting the per-call results and the final state. -/
def activateSequence (isVibrationHandleValid delegateActivate : VibrationDeviceHandle → Result)
    (s : DeviceListState) : List VibrationDeviceHandle → List Result × DeviceListState
  | [] => ([], s)
  | h :: hs =>
    let o := ActivateVibrationDeviceImpl isVibrationHandleValid delegateActivate s h
    let rest := activateSequence isVibrationHandleValid delegateActivate o.state hs
    (o.result :: rest.1, rest.2)

/-- Boolean distinctness for a handle list: no later element matches an
earlier one under the registry's composite-equality test. -/
def noLaterMatch : List VibrationDeviceHandle → Bool
  | [] => true
  | h :: hs => hs.all (fun b => !(vibrationHandlesMatch b h)) && noLaterMatch hs

/-- One call of a managed-mode activation handler: the `Result` pushed to
the client, whether the low-level `Activate()` delegate ran, and whether
the per-session `Activate(applet_resource_user_id)` delegate ran. -/
structure ManagedActivateOutcome where
  result : Result
  low_called : Bool
  session_called : Bool
deriving DecidableEq

/-- `IHidServer::ActivateDebugPad`, lines 266-285.  `isDeviceManaged`
stands for `firmware_settings->IsDeviceManaged()`, `activateResult` for the
result of `debug_pad->Activate()`, `activateAruidResult` for the result of
`debug_pad->Activate(applet_resource_user_id)`. -/
def ActivateDebugPad (isDeviceManaged : Bool)
    (activateResult activateAruidResult : Result) : ManagedActivateOutcome :=
  let step1 : Result × Bool :=
    if !isDeviceManaged then (activateResult, true) else (ResultSuccess, false)
  if step1.1.IsSuccess then ⟨activateAruidResult, step1.2, true⟩
  else ⟨step1.1, step1.2, false⟩

/-- `IHidServer::ActivateTouchScreen`, lines 287-306; same shape as
`ActivateDebugPad` with the touch-screen delegates. -/
def ActivateTouchScreen (isDeviceManaged : Bool)
    (activateResult activateAruidResult : Result) : ManagedActivateOutcome :=
  let step1 : Result × Bool :=
    if !isDeviceManaged then (activateResult, true) else (ResultSuccess, false)
  if step1.1.IsSuccess then ⟨activateAruidResult, step1.2, true⟩
  else ⟨step1.1, step1.2, false⟩

/-- `IHidServer::ActivateMouse`, lines 308-327; same shape with the mouse
delegates. -/
def ActivateMouse (isDeviceManaged : Bool)
    (activateResult activateAruidResult : Result) : ManagedActivateOutcome :=
  let step1 : Result × Bool :=
    if !isDeviceManaged then (activateResult, true) else (ResultSuccess, false)
  if step1.1.IsSuccess then ⟨activateAruidResult, step1.2, true⟩
  else ⟨step1.1, step1.2, false⟩

/-- `IHidServer::ActivateKeyboard`, lines 329-348; same shape with the
keyboard delegates. -/
def ActivateKeyboard (isDeviceManaged : Bool)
    (activateResult activateAruidResult : Result) : ManagedActivateOutcome :=
  let step1 : Result × Bool :=
    if !isDeviceManaged then (activateResult, true) else (ResultSuccess, false)
  if step1.1.IsSuccess then ⟨activateAruidResult, step1.2, true⟩
  else ⟨step1.1, step1.2, false⟩

/-- `IHidServer::ActivateSevenSixAxisSensor`, lines 1909-1928.  The
low-level delegate gates the per-session delegate, but the handler pushes
`ResultSuccess` unconditionally and discards both delegate results (the
per-session result is not even assigned). -/
def ActivateSevenSixAxisSensor (isDeviceManaged : Bool)
    (activateResult activateAruidResult : Result) : ManagedActivateOutcome :=
  let step1 : Result × Bool :=
    if !isDeviceManaged then (activateResult, true) else (ResultSuccess, false)
  if step1.1.IsSuccess then ⟨ResultSuccess, step1.2, true⟩
  else ⟨ResultSuccess, step1.2, false⟩

/-- The sequence of delegate results a managed-mode activation handler
observes, in call order: the low-level result when `!isDeviceManaged`, then
the per-session result when the low-level step succeeded or was skipped. -/
def calledDelegateResults (isDeviceManaged : Bool)
    (activateResult activateAruidResult : Result) : List Result :=
  (if !isDeviceManaged then [activateResult] else []) ++
    (if isDeviceManaged || activateResult.IsSuccess then [activateAruidResult] else [])

/-- First non-success result of a result list, `ResultSuccess` if none. -/
def firstFailing : List Result → Result
  | [] => ResultSuccess
  | r :: rs => if r.IsSuccess then firstFailing rs else r

/-- `IHidServer::GetXpadIds`, lines 405-415: writes the hardcoded array
`{0, 1, 2, 3}` to the output buffer and pushes `ResultSuccess` and the
array size as `s64`.  The handler touches no member state; this is modelled
by threading an arbitrary state `σ` through unchanged. -/
def GetXpadIds {σ : Type} (s : σ) : (Result × List Nat × Int) × σ :=
  ((ResultSuccess, [0, 1, 2, 3], 4), s)

/-- `IHidServer::ActivateXpad`, lines 385-403: stubbed since 10.0.0+;
decodes `basic_xpad_id` and `applet_resource_user_id`, calls no delegate,
pushes `ResultSuccess`. -/
def ActivateXpad {σ : Type} (basic_xpad_id : Nat) (applet_resource_user_id : Nat)
    (s : σ) : Result × σ :=
  (ResultSuccess, s)

/-- `IHidServer::SendKeyboardLockKeyEvent`, lines 350-358: stubbed; decodes
`flags`, calls no delegate, pushes `ResultSuccess`. -/
def SendKeyboardLockKeyEvent {σ : Type} (flags : Nat) (s : σ) : Result × σ :=
  (ResultSuccess, s)

/-- `IHidServer::DeactivateNpad`, lines 1082-1092: does nothing since
10.0.0+; decodes `applet_resource_user_id`, calls no delegate, pushes
`ResultSuccess`. -/
def DeactivateNpad {σ : Type} (applet_resource_user_id : Nat) (s : σ) : Result × σ :=
  (ResultSuccess, s)

/-- `IHidServer::SetNpadCommunicationMode`, lines 2423-2435: stubbed since
2.0.0+; decodes `applet_resource_user_id` and `communication_mode`, calls
no delegate, pushes `ResultSuccess`. -/
def SetNpadCommunicationMode {σ : Type} (applet_resource_user_id : Nat)
    (communication_mode : Nat) (s : σ) : Result × σ :=
  (ResultSuccess, s)

/-- The loop of `IHidServer::SendVibrationValues`, lines 1660-1665: walk the
(handle, value) pairs carrying the accumulated `result`; when `result` is
still success, invoke `SendVibrationValue` on the pair (recorded in the
returned call list) and continue with its result. -/
def sendVibrationLoop {V : Type} (delegate : VibrationDeviceHandle → V → Result) :
    Result → List (VibrationDeviceHandle × V) → Result × List (VibrationDeviceHandle × V)
  | result, [] => (result, [])
  | result, p :: ps =>
    if result.IsSuccess then
      let o := sendVibrationLoop delegate (delegate p.1 p.2) ps
      (o.1, p :: o.2)
    else
      sendVibrationLoop delegate result ps

/-- `IHidServer::SendVibrationValues`, lines 1638-1669.  `delegate` stands
for `GetResourceManager()->SendVibrationValue(applet_resource_user_id, ., .)`.
The result starts as `ResultSuccess` and is set to
`ResultVibrationArraySizeMismatch` when the two buffers' element counts
differ; the loop body only runs the delegate while the result is success.
Returns the pushed result and the delegate calls in order. -/
def SendVibrationValues {V : Type} (delegate : VibrationDeviceHandle → V → Result)
    (handles : List VibrationDeviceHandle) (values : List V) :
    Result × List (VibrationDeviceHandle × V) :=
  let result :=
    if handles.length == values.length then ResultSuccess
    else ResultVibrationArraySizeMismatch
  sendVibrationLoop delegate result (handles.zip values)

/-- The delegate calls `SendVibrationValues` makes when the counts match:
each pair in order up to and including the first pair whose delegate call
fails. -/
def forwardedPairs {V : Type} (delegate : VibrationDeviceHandle → V → Result) :
    List (VibrationDeviceHandle × V) → List (VibrationDeviceHandle × V)
  | [] => []
  | p :: ps =>
    if (delegate p.1 p.2).IsSuccess then p :: forwardedPairs delegate ps else [p]

/-- The specification of one managed-mode activation call's outcome: the
low-level delegate runs exactly when the device is not centrally managed,
the per-session delegate runs exactly when the low-level step succeeded or
was skipped, and the pushed result is the first failing delegate result
(success if none failed). -/
def ManagedActivationSpec (isDeviceManaged : Bool)
    (activateResult activateAruidResult : Result) (o : ManagedActivateOutcome) : Prop :=
  o.low_called = !isDeviceManaged ∧
  o.session_called = (isDeviceManaged || activateResult.IsSuccess) ∧
  o.result = firstFailing (calledDelegateResults isDeviceManaged activateResult activateAruidResult)

/-- A validator / delegate that reports success for every handle, for use
in concrete scenarios. -/
def alwaysSuccess : VibrationDeviceHandle → Result := fun _ => ResultSuccess

/-- A delegate that reports a (nonzero) error for every handle, for use in
concrete scenarios. -/
def alwaysFail : VibrationDeviceHandle → Result := fun _ => ⟨1⟩

/-- A concrete device handle for scenarios. -/
def sampleHandle : VibrationDeviceHandle := ⟨0, 0, 0, 0⟩

/-- A concrete family of `vibrationDeviceListCapacity` pairwise-distinct
handles (distinct `npad_id` fields). -/
def witnessHandles : List VibrationDeviceHandle :=
  (List.range vibrationDeviceListCapacity).map (fun i => ⟨0, i, 0, 0⟩)

/-- A delegate over `Nat` payloads that succeeds exactly on payload `0`,
for `SendVibrationValues` scenarios. -/
def numDelegate : VibrationDeviceHandle → Nat → Result := fun _ v => ⟨v⟩

theorem Result.eq_success_of_isSuccess {r : Result} (h : r.IsSuccess = true) :
    r = ResultSuccess := by
  cases r with
  | mk raw =>
    simp only [Result.IsSuccess, beq_iff_eq] at h
    simp [ResultSuccess, h]

theorem Result.isError_eq_not_isSuccess (r : Result) :
    r.IsError = !r.IsSuccess := rfl

theorem vibrationHandlesMatch_self (h : VibrationDeviceHandle) :
    vibrationHandlesMatch h h = true := by
  simp [vibrationHandlesMatch]

theorem firstFailing_singleton (r : Result) : firstFailing [r] = r := by
  cases hr : r.IsSuccess
  · simp [firstFailing, hr]
  · simp [firstFailing, hr, Result.eq_success_of_isSuccess hr]

theorem firstFailing_cons (r : Result) (rs : List Result) :
    firstFailing (r :: rs) = if r.IsSuccess then firstFailing rs else r := rfl

theorem resultSuccess_isSuccess : ResultSuccess.IsSuccess = true := rfl

theorem activate_invalid (iv da : VibrationDeviceHandle → Result)
    (s : DeviceListState) (h : VibrationDeviceHandle)
    (hv : (iv h).IsError = true) :
    ActivateVibrationDeviceImpl iv da s h = ⟨iv h, s, []⟩ := by
  simp [ActivateVibrationDeviceImpl, hv]

theorem activate_present (iv da : VibrationDeviceHandle → Result)
    (s : DeviceListState) (h : VibrationDeviceHandle)
    (hv : (iv h).IsError = false)
    (hmem : s.vibration_device_list.any (fun d => vibrationHandlesMatch h d) = true) :
    ActivateVibrationDeviceImpl iv da s h = ⟨ResultSuccess, s, []⟩ := by
  simp [ActivateVibrationDeviceImpl, hv, hmem]

theorem activate_full (iv da : VibrationDeviceHandle → Result)
    (s : DeviceListState) (h : VibrationDeviceHandle)
    (hv : (iv h).IsError = false)
    (hmem : s.vibration_device_list.any (fun d => vibrationHandlesMatch h d) = false)
    (hfull : s.vibration_device_list.length = vibrationDeviceListCapacity) :
    ActivateVibrationDeviceImpl iv da s h = ⟨ResultVibrationDeviceIndexOutOfRange, s, []⟩ := by
  simp [ActivateVibrationDeviceImpl, hv, hmem, hfull]

theorem activate_delegate_fail (iv da : VibrationDeviceHandle → Result)
    (s : DeviceListState) (h : VibrationDeviceHandle)
    (hv : (iv h).IsError = false)
    (hmem : s.vibration_device_list.any (fun d => vibrationHandlesMatch h d) = false)
    (hne : s.vibration_device_list.length ≠ vibrationDeviceListCapacity)
    (hda : (da h).IsError = true) :
    ActivateVibrationDeviceImpl iv da s h = ⟨da h, s, [h]⟩ := by
  have hbeq : (s.vibration_device_list.length == vibrationDeviceListCapacity) = false :=
    beq_eq_false_iff_ne.mpr hne
  simp [ActivateVibrationDeviceImpl, hv, hmem, hbeq, hda]

theorem activate_insert (iv da : VibrationDeviceHandle → Result)
    (s : DeviceListState) (h : VibrationDeviceHandle)
    (hv : (iv h).IsError = false)
    (hmem : s.vibration_device_list.any (fun d => vibrationHandlesMatch h d) = false)
    (hne : s.vibration_device_list.length ≠ vibrationDeviceListCapacity)
    (hda : (da h).IsError = false) :
    ActivateVibrationDeviceImpl iv da s h
      = ⟨ResultSuccess, ⟨s.vibration_device_list ++ [h]⟩, [h]⟩ := by
  have hbeq : (s.vibration_device_list.length == vibrationDeviceListCapacity) = false :=
    beq_eq_false_iff_ne.mpr hne
  simp [ActivateVibrationDeviceImpl, hv, hmem, hbeq, hda]

/-- Claim C1: activation is idempotent.  For a valid fresh handle (with a
successful delegate and free capacity), the first `activate` succeeds and
grows the registry by one; the second `activate` of the same handle also
succeeds, changes nothing, and makes no delegate call — the size grows by
exactly 1 in total, not 2. -/
theorem activate_idempotent (iv da : VibrationDeviceHandle → Result)
    (s : DeviceListState) (h : VibrationDeviceHandle)
    (hvalid : (iv h).IsError = false)
    (hda : (da h).IsError = false)
    (hfresh : s.vibration_device_list.any (fun d => vibrationHandlesMatch h d) = false)
    (hroom : s.vibration_device_list.length < vibrationDeviceListCapacity) :
    (ActivateVibrationDeviceImpl iv da s h).result = ResultSuccess ∧
    (ActivateVibrationDeviceImpl iv da s h).state.vibration_device_list.length
      = s.vibration_device_list.length + 1 ∧
    (ActivateVibrationDeviceImpl iv da
        (ActivateVibrationDeviceImpl iv da s h).state h).result = ResultSuccess ∧
    (ActivateVibrationDeviceImpl iv da
        (ActivateVibrationDeviceImpl iv da s h).state h).state
      = (ActivateVibrationDeviceImpl iv da s h).state ∧
    (ActivateVibrationDeviceImpl iv da
        (ActivateVibrationDeviceImpl iv da s h).state h).delegate_calls = [] := by
  have h1 : ActivateVibrationDeviceImpl iv da s h
      = ⟨ResultSuccess, ⟨s.vibration_device_list ++ [h]⟩, [h]⟩ :=
    activate_insert iv da s h hvalid hfresh (Nat.ne_of_lt hroom) hda
  have hmem2 : (s.vibration_device_list ++ [h]).any
      (fun d => vibrationHandlesMatch h d) = true := by
    simp [List.any_append, vibrationHandlesMatch_self]
  have h2 : ActivateVibrationDeviceImpl iv da ⟨s.vibration_device_list ++ [h]⟩ h
      = ⟨ResultSuccess, ⟨s.vibration_device_list ++ [h]⟩, []⟩ :=
    activate_present iv da ⟨s.vibration_device_list ++ [h]⟩ h hvalid hmem2
  rw [h1]
  simp [h2]

/-- Concrete instance of `activate_idempotent`: activating a fresh handle
twice from the empty registry. -/
theorem activate_idempotent_witness :
    (ActivateVibrationDeviceImpl alwaysSuccess alwaysSuccess ⟨[]⟩ sampleHandle).result
      = ResultSuccess ∧
    (ActivateVibrationDeviceImpl alwaysSuccess alwaysSuccess ⟨[]⟩
        sampleHandle).state.vibration_device_list.length
      = (DeviceListState.mk []).vibration_device_list.length + 1 ∧
    (ActivateVibrationDeviceImpl alwaysSuccess alwaysSuccess
        (ActivateVibrationDeviceImpl alwaysSuccess alwaysSuccess ⟨[]⟩ sampleHandle).state
        sampleHandle).result = ResultSuccess ∧
    (ActivateVibrationDeviceImpl alwaysSuccess alwaysSuccess
        (ActivateVibrationDeviceImpl alwaysSuccess alwaysSuccess ⟨[]⟩ sampleHandle).state
        sampleHandle).state
      = (ActivateVibrationDeviceImpl alwaysSuccess alwaysSuccess ⟨[]⟩ sampleHandle).state ∧
    (ActivateVibrationDeviceImpl alwaysSuccess alwaysSuccess
        (ActivateVibrationDeviceImpl alwaysSuccess alwaysSuccess ⟨[]⟩ sampleHandle).state
        sampleHandle).delegate_calls = [] :=
  activate_idempotent alwaysSuccess alwaysSuccess ⟨[]⟩ sampleHandle rfl rfl rfl (by decide)

/-- Claim C3: the duplicate check short-circuits before the capacity
check.  For a valid handle already present in the registry — even a full
one — `activate` returns success with no delegate call and no state
change. -/
theorem dedup_short_circuits (iv da : VibrationDeviceHandle → Result)
    (s : DeviceListState) (h : VibrationDeviceHandle)
    (hvalid : (iv h).IsError = false)
    (hfull : s.vibration_device_list.length = vibrationDeviceListCapacity)
    (hmem : s.vibration_device_list.any (fun d => vibrationHandlesMatch h d) = true) :
    ActivateVibrationDeviceImpl iv da s h = ⟨ResultSuccess, s, []⟩ :=
  activate_present iv da s h hvalid hmem

/-- Concrete instance of `dedup_short_circuits`: re-activating a handle
already present in a registry holding `vibrationDeviceListCapacity`
entries, with a delegate that would fail if it were consulted. -/
theorem dedup_short_circuits_witness :
    ActivateVibrationDeviceImpl alwaysSuccess alwaysFail ⟨witnessHandles⟩ ⟨0, 5, 0, 7⟩
      = ⟨ResultSuccess, ⟨witnessHandles⟩, []⟩ :=
  dedup_short_circuits alwaysSuccess alwaysFail ⟨witnessHandles⟩ ⟨0, 5, 0, 7⟩
    rfl (by decide) (by decide)

/-- Claim C4: activation is atomic on error.  Whenever
`ActivateVibrationDeviceImpl` returns a non-success result the registry
state is unchanged; when validation fails the validator's error is
propagated with no delegate call; and a failed delegate call propagates
the delegate's error with the handle not inserted. -/
theorem activate_atomic_on_error (iv da : VibrationDeviceHandle → Result)
    (s : DeviceListState) (h : VibrationDeviceHandle) :
    ((ActivateVibrationDeviceImpl iv da s h).result ≠ ResultSuccess →
      (ActivateVibrationDeviceImpl iv da s h).state = s) ∧
    ((iv h).IsError = true → ActivateVibrationDeviceImpl iv da s h = ⟨iv h, s, []⟩) ∧
    ((iv h).IsError = false →
      s.vibration_device_list.any (fun d => vibrationHandlesMatch h d) = false →
      s.vibration_device_list.length ≠ vibrationDeviceListCapacity →
      (da h).IsError = true →
      ActivateVibrationDeviceImpl iv da s h = ⟨da h, s, [h]⟩) := by
  refine ⟨?_, activate_invalid iv da s h, activate_delegate_fail iv da s h⟩
  intro hne
  cases hv : (iv h).IsError with
  | true => rw [activate_invalid iv da s h hv]
  | false =>
    cases hmem : s.vibration_device_list.any (fun d => vibrationHandlesMatch h d) with
    | true => exact absurd (by rw [activate_present iv da s h hv hmem]) hne
    | false =>
      by_cases hfull : s.vibration_device_list.length = vibrationDeviceListCapacity
      · rw [activate_full iv da s h hv hmem hfull]
      · cases hda : (da h).IsError with
        | true => rw [activate_delegate_fail iv da s h hv hmem hfull hda]
        | false => exact absurd (by rw [activate_insert iv da s h hv hmem hfull hda]) hne

/-- Concrete instances of `activate_atomic_on_error`: a failing validator
propagates its error with no delegate call; a failing delegate propagates
its error with the handle not inserted; and the state is unchanged on such
an error. -/
theorem activate_atomic_on_error_witness :
    ActivateVibrationDeviceImpl alwaysFail alwaysSuccess ⟨[]⟩ sampleHandle
      = ⟨alwaysFail sampleHandle, ⟨[]⟩, []⟩ ∧
    ActivateVibrationDeviceImpl alwaysSuccess alwaysFail ⟨[]⟩ sampleHandle
      = ⟨alwaysFail sampleHandle, ⟨[]⟩, [sampleHandle]⟩ ∧
    (ActivateVibrationDeviceImpl alwaysSuccess alwaysFail ⟨[]⟩ sampleHandle).state = ⟨[]⟩ :=
  ⟨(activate_atomic_on_error alwaysFail alwaysSuccess ⟨[]⟩ sampleHandle).2.1 rfl,
    (activate_atomic_on_error alwaysSuccess alwaysFail ⟨[]⟩ sampleHandle).2.2
      rfl rfl (by decide) rfl,
    (activate_atomic_on_error alwaysSuccess alwaysFail ⟨[]⟩ sampleHandle).1 (by decide)⟩

theorem activateSequence_fresh (iv da : VibrationDeviceHandle → Result)
    (hs : List VibrationDeviceHandle) :
    ∀ pref : List VibrationDeviceHandle,
    (∀ x ∈ hs, (iv x).IsError = false) →
    (∀ x ∈ hs, (da x).IsError = false) →
    noLaterMatch hs = true →
    (∀ x ∈ hs, ∀ p ∈ pref, vibrationHandlesMatch x p = false) →
    pref.length + hs.length ≤ vibrationDeviceListCapacity →
    activateSequence iv da ⟨pref⟩ hs
      = (hs.map (fun _ => ResultSuccess), ⟨pref ++ hs⟩) := by
  induction hs with
  | nil => intro pref _ _ _ _ _; simp [activateSequence]
  | cons h hs ih =>
    intro pref hA hB hdist hfresh hlen
    simp only [noLaterMatch, Bool.and_eq_true] at hdist
    obtain ⟨hdist1, hdist2⟩ := hdist
    have hmem : pref.any (fun d => vibrationHandlesMatch h d) = false := by
      rw [List.any_eq_false]
      intro p hp
      simp [hfresh h (by simp) p hp]
    have hne : pref.length ≠ vibrationDeviceListCapacity := by
      simp only [List.length_cons] at hlen
      omega
    have h1 : ActivateVibrationDeviceImpl iv da ⟨pref⟩ h
        = ⟨ResultSuccess, ⟨pref ++ [h]⟩, [h]⟩ :=
      activate_insert iv da ⟨pref⟩ h (hA h (by simp)) hmem hne (hB h (by simp))
    have step := ih (pref ++ [h]) (fun x hx => hA x (by simp [hx]))
      (fun x hx => hB x (by simp [hx])) hdist2 ?_ ?_
    · simp only [activateSequence, h1]
      rw [step]
      simp
    · intro x hx p hp
      rcases List.mem_append.mp hp with hp | hp
      · exact hfresh x (by simp [hx]) p hp
      · have hm := List.all_eq_true.mp hdist1 x hx
        simp only [List.mem_singleton] at hp
        subst hp
        simpa using hm
    · simp only [List.length_append, List.length_singleton, List.length_cons,
        List.length_nil] at hlen ⊢
      omega

/-- Claim C2: capacity bound.  Activating `vibrationDeviceListCapacity`
pairwise-distinct valid handles (successful delegates) from the empty
registry succeeds at every step and yields a registry of exactly that
size; activating a further distinct valid handle then returns
`ResultVibrationDeviceIndexOutOfRange` with the registry unchanged; and
`size ≤ capacity` is preserved by every operation. -/
theorem capacity_bound (iv da : VibrationDeviceHandle → Result)
    (hs : List VibrationDeviceHandle) (h2 : VibrationDeviceHandle)
    (hA : ∀ x ∈ hs, (iv x).IsError = false)
    (hB : ∀ x ∈ hs, (da x).IsError = false)
    (hdist : noLaterMatch hs = true)
    (hlen : hs.length = vibrationDeviceListCapacity)
    (hv2 : (iv h2).IsError = false)
    (hfresh2 : ∀ x ∈ hs, vibrationHandlesMatch h2 x = false) :
    (∀ r ∈ (activateSequence iv da ⟨[]⟩ hs).1, r = ResultSuccess) ∧
    (activateSequence iv da ⟨[]⟩ hs).2.vibration_device_list.length
      = vibrationDeviceListCapacity ∧
    ActivateVibrationDeviceImpl iv da (activateSequence iv da ⟨[]⟩ hs).2 h2
      = ⟨ResultVibrationDeviceIndexOutOfRange, (activateSequence iv da ⟨[]⟩ hs).2, []⟩ ∧
    (∀ (iv2 da2 : VibrationDeviceHandle → Result) (s : DeviceListState)
        (x : VibrationDeviceHandle),
      s.vibration_device_list.length ≤ vibrationDeviceListCapacity →
      (ActivateVibrationDeviceImpl iv2 da2 s x).state.vibration_device_list.length
        ≤ vibrationDeviceListCapacity) := by
  have hseq : activateSequence iv da ⟨[]⟩ hs = (hs.map fun _ => ResultSuccess, ⟨hs⟩) := by
    have hit := activateSequence_fresh iv da hs [] hA hB hdist
      (by intro x hx p hp; simp at hp) (by simp [hlen])
    simpa using hit
  have hmem2 : hs.any (fun d => vibrationHandlesMatch h2 d) = false :=
    List.any_eq_false.mpr (by intro p hp; simp [hfresh2 p hp])
  refine ⟨?_, ?_, ?_, ?_⟩
  · rw [hseq]
    intro r hr
    obtain ⟨x, _, hx⟩ := List.mem_map.mp hr
    exact hx.symm
  · rw [hseq]
    exact hlen
  · rw [hseq]
    exact activate_full iv da ⟨hs⟩ h2 hv2 hmem2 hlen
  · intro iv2 da2 s x hle
    cases hv : (iv2 x).IsError with
    | true => rw [activate_invalid iv2 da2 s x hv]; exact hle
    | false =>
      cases hmem : s.vibration_device_list.any (fun d => vibrationHandlesMatch x d) with
      | true => rw [activate_present iv2 da2 s x hv hmem]; exact hle
      | false =>
        by_cases hfull : s.vibration_device_list.length = vibrationDeviceListCapacity
        · rw [activate_full iv2 da2 s x hv hmem hfull]; exact hle
        · cases hda : (da2 x).IsError with
          | true => rw [activate_delegate_fail iv2 da2 s x hv hmem hfull hda]; exact hle
          | false =>
            rw [activate_insert iv2 da2 s x hv hmem hfull hda]
            simp only [List.length_append, List.length_singleton]
            omega

/-- Concrete instance of `capacity_bound`: after activating 256 distinct
handles the registry holds 256 entries and a further distinct handle is
rejected with the registry unchanged. -/
theorem capacity_bound_witness :
    (activateSequence alwaysSuccess alwaysSuccess ⟨[]⟩
        witnessHandles).2.vibration_device_list.length = vibrationDeviceListCapacity ∧
    ActivateVibrationDeviceImpl alwaysSuccess alwaysSuccess
        (activateSequence alwaysSuccess alwaysSuccess ⟨[]⟩ witnessHandles).2 ⟨1, 0, 0, 0⟩
      = ⟨ResultVibrationDeviceIndexOutOfRange,
          (activateSequence alwaysSuccess alwaysSuccess ⟨[]⟩ witnessHandles).2, []⟩ := by
  obtain ⟨_, hb, hc, _⟩ := capacity_bound alwaysSuccess alwaysSuccess witnessHandles
    ⟨1, 0, 0, 0⟩ (fun x _ => rfl) (fun x _ => rfl) (by decide) (by decide) rfl (by decide)
  exact ⟨hb, hc⟩

theorem sendVibrationLoop_error {V : Type} (d : VibrationDeviceHandle → V → Result)
    (r : Result) (hr : r.IsSuccess = false) :
    ∀ ps : List (VibrationDeviceHandle × V), sendVibrationLoop d r ps = (r, []) := by
  intro ps
  induction ps with
  | nil => rfl
  | cons p ps ih => simp [sendVibrationLoop, hr, ih]

theorem sendVibrationLoop_success {V : Type} (d : VibrationDeviceHandle → V → Result) :
    ∀ ps : List (VibrationDeviceHandle × V),
    sendVibrationLoop d ResultSuccess ps
      = (firstFailing (ps.map fun p => d p.1 p.2), forwardedPairs d ps) := by
  intro ps
  induction ps with
  | nil => rfl
  | cons p ps ih =>
    cases hd : (d p.1 p.2).IsSuccess with
    | true =>
      have heq : d p.1 p.2 = ResultSuccess := Result.eq_success_of_isSuccess hd
      simp [sendVibrationLoop, resultSuccess_isSuccess, heq, ih, firstFailing,
        forwardedPairs, hd]
    | false =>
      simp [sendVibrationLoop, resultSuccess_isSuccess, sendVibrationLoop_error d _ hd,
        firstFailing, forwardedPairs, hd]

/-- Claim C10: `SendVibrationValues` with mismatched buffer element counts
returns `ResultVibrationArraySizeMismatch` and makes no delegate calls;
with equal counts it forwards each (handle, value) pair in buffer order,
stops forwarding after the first delegate error, and returns the first
failing delegate result (success if none). -/
theorem sendVibrationValues_spec {V : Type}
    (delegate : VibrationDeviceHandle → V → Result)
    (handles : List VibrationDeviceHandle) (values : List V) :
    (handles.length ≠ values.length →
      SendVibrationValues delegate handles values
        = (ResultVibrationArraySizeMismatch, [])) ∧
    (handles.length = values.length →
      SendVibrationValues delegate handles values
        = (firstFailing ((handles.zip values).map fun p => delegate p.1 p.2),
            forwardedPairs delegate (handles.zip values))) := by
  constructor
  · intro hne
    have hbeq : (handles.length == values.length) = false := beq_eq_false_iff_ne.mpr hne
    simp only [SendVibrationValues, hbeq, Bool.false_eq_true, if_false]
    exact sendVibrationLoop_error delegate ResultVibrationArraySizeMismatch rfl _
  · intro heq
    have hbeq : (handles.length == values.length) = true := beq_iff_eq.mpr heq
    simp only [SendVibrationValues, hbeq, if_true]
    exact sendVibrationLoop_success delegate _

/-- Concrete instances of `sendVibrationValues_spec`: a count mismatch
yields the mismatch error with no delegate calls; with equal counts and a
failing second value, forwarding stops after the second pair and the
second delegate error is returned. -/
theorem sendVibrationValues_spec_witness :
    SendVibrationValues numDelegate [sampleHandle] ([] : List Nat)
      = (ResultVibrationArraySizeMismatch, []) ∧
    SendVibrationValues numDelegate [sampleHandle, sampleHandle, sampleHandle] [0, 5, 7]
      = (firstFailing (([sampleHandle, sampleHandle, sampleHandle].zip [0, 5, 7]).map
            fun p => numDelegate p.1 p.2),
          forwardedPairs numDelegate
            ([sampleHandle, sampleHandle, sampleHandle].zip [0, 5, 7])) :=
  ⟨(sendVibrationValues_spec numDelegate [sampleHandle] ([] : List Nat)).1 (by decide),
    (sendVibrationValues_spec numDelegate [sampleHandle, sampleHandle, sampleHandle]
      [0, 5, 7]).2 rfl⟩

/-- Claim C5: for the managed-mode device activation handlers
(`ActivateDebugPad`, `ActivateTouchScreen`, `ActivateMouse`,
`ActivateKeyboard`), the low-level `Activate()` delegate is called iff
`IsDeviceManaged()` is false, the per-session `Activate(aruid)` delegate is
called iff the low-level step succeeded or was skipped, and the operation's
result is the first failing delegate result, else success. -/
theorem managed_activation_spec (isDeviceManaged : Bool)
    (activateResult activateAruidResult : Result) :
    ManagedActivationSpec isDeviceManaged activateResult activateAruidResult
      (ActivateDebugPad isDeviceManaged activateResult activateAruidResult) ∧
    ManagedActivationSpec isDeviceManaged activateResult activateAruidResult
      (ActivateTouchScreen isDeviceManaged activateResult activateAruidResult) ∧
    ManagedActivationSpec isDeviceManaged activateResult activateAruidResult
      (ActivateMouse isDeviceManaged activateResult activateAruidResult) ∧
    ManagedActivationSpec isDeviceManaged activateResult activateAruidResult
      (ActivateKeyboard isDeviceManaged activateResult activateAruidResult) := by
  have key : ManagedActivationSpec isDeviceManaged activateResult activateAruidResult
      (ActivateDebugPad isDeviceManaged activateResult activateAruidResult) := by
    cases isDeviceManaged <;> cases hl : activateResult.IsSuccess <;>
      cases hb : activateAruidResult.IsSuccess <;>
      simp [ManagedActivationSpec, ActivateDebugPad, calledDelegateResults, hl, hb,
        firstFailing, resultSuccess_isSuccess, Result.eq_success_of_isSuccess]
  exact ⟨key, key, key, key⟩

/-- Claim C9: `ActivateSevenSixAxisSensor` always pushes `ResultSuccess`;
the low-level delegate result gates whether the per-session delegate is
attempted, but errors from either delegate are discarded and never reach
the client. -/
theorem activateSevenSixAxisSensor_always_success (isDeviceManaged : Bool)
    (activateResult activateAruidResult : Result) :
    (ActivateSevenSixAxisSensor isDeviceManaged activateResult activateAruidResult).result
      = ResultSuccess ∧
    (ActivateSevenSixAxisSensor isDeviceManaged activateResult activateAruidResult).low_called
      = !isDeviceManaged ∧
    (ActivateSevenSixAxisSensor isDeviceManaged activateResult activateAruidResult).session_called
      = (isDeviceManaged || activateResult.IsSuccess) := by
  cases isDeviceManaged <;> cases hl : activateResult.IsSuccess <;>
    simp [ActivateSevenSixAxisSensor, hl, resultSuccess_isSuccess]

/-- Claim C6: `GetXpadIds` returns the literal sequence `[0, 1, 2, 3]`
with reported count `4` and a success result, leaves any state unchanged,
and is deterministic across any two calls from any two states. -/
theorem getXpadIds_constant {σ σ2 : Type} (s : σ) (s2 : σ2) :
    GetXpadIds s = ((ResultSuccess, [0, 1, 2, 3], 4), s) ∧
    (GetXpadIds s).1 = (GetXpadIds s2).1 :=
  ⟨rfl, rfl⟩

/-- Claim C7: the stubbed handlers `ActivateXpad`,
`SendKeyboardLockKeyEvent`, `DeactivateNpad`, `SetNpadCommunicationMode`
call no delegate, mutate no state, and push `ResultSuccess` regardless of
the decoded parameter values. -/
theorem stubbed_handlers_fixed_success {σ : Type} (s : σ)
    (basic_xpad_id applet_resource_user_id flags communication_mode : Nat) :
    ActivateXpad basic_xpad_id applet_resource_user_id s = (ResultSuccess, s) ∧
    SendKeyboardLockKeyEvent flags s = (ResultSuccess, s) ∧
    DeactivateNpad applet_resource_user_id s = (ResultSuccess, s) ∧
    SetNpadCommunicationMode applet_resource_user_id communication_mode s = (ResultSuccess, s) :=
  ⟨rfl, rfl, rfl, rfl⟩

/-- Claim C8: the registry's duplicate detection treats two handles as the
same iff their `npad_type`, `npad_id` and `device_index` fields are all
pairwise equal (the padding byte, i.e. how the handle was constructed, is
irrelevant); and any stored handle matching a probe under this composite
equality makes the registry's duplicate scan report a hit. -/
theorem handle_identity_composite (h1 h2 : VibrationDeviceHandle) :
    (vibrationHandlesMatch h1 h2 = true ↔
      (h1.npad_type = h2.npad_type ∧ h1.npad_id = h2.npad_id ∧
        h1.device_index = h2.device_index)) ∧
    (∀ s : DeviceListState, h2 ∈ s.vibration_device_list →
      vibrationHandlesMatch h1 h2 = true →
      s.vibration_device_list.any (fun d => vibrationHandlesMatch h1 d) = true) := by
  constructor
  · simp only [vibrationHandlesMatch, Bool.and_eq_true, beq_iff_eq]
    tauto
  · intro s hmem hmatch
    exact List.any_eq_true.mpr ⟨h2, hmem, hmatch⟩

/-- Concrete instance of `handle_identity_composite`: two handles differing
only in the padding byte are identified by the duplicate scan. -/
theorem handle_identity_composite_witness :
    vibrationHandlesMatch ⟨1, 2, 3, 7⟩ ⟨1, 2, 3, 9⟩ = true ∧
    (DeviceListState.mk [⟨1, 2, 3, 9⟩]).vibration_device_list.any
      (fun d => vibrationHandlesMatch ⟨1, 2, 3, 7⟩ d) = true :=
  ⟨(handle_identity_composite ⟨1, 2, 3, 7⟩ ⟨1, 2, 3, 9⟩).1.mpr (by decide),
    (handle_identity_composite ⟨1, 2, 3, 7⟩ ⟨1, 2, 3, 9⟩).2 ⟨[⟨1, 2, 3, 9⟩]⟩
      (by decide) (by decide)⟩

end Hid
